import Mathlib

/-!
Verification development for the AI-Agent-Backend task-orchestration layer.

The Python source is shallowly embedded: Python dicts become association
lists of `String × Val` with first-binding lookup, raising functions become
`Except` values, and the ambient effects (Celery message ids, wall-clock
timestamps, `random` draws) become explicit parameters.  Numeric values are
modelled as rationals (Python float formatting is abstracted by `toString`).
-/

/-- JSON-like values carried in task params and result payloads. -/
inductive Val where
  | str (s : String)
  | num (q : ℚ)
  | bool (b : Bool)
  | vnull
  | list (vs : List Val)
  | dict (kvs : List (String × Val))
deriving Repr

/-- A Python dict of string keys, as an association list. -/
abbrev Dict := List (String × Val)

/-- `d.get(k)` / `d[k]` lookup: first binding of `k`. -/
def dGet {α : Type} : List (String × α) → String → Option α
  | [], _ => none
  | p :: rest, k => if p.1 = k then some p.2 else dGet rest k

/-- `d[k] = v` assignment: overwrite the binding of `k` in place, or append
a new binding at the end, as a Python dict does. -/
def dSet {α : Type} : List (String × α) → String → α → List (String × α)
  | [], k, v => [(k, v)]
  | p :: rest, k, v => if p.1 = k then (k, v) :: rest else p :: dSet rest k v

/-- `d.update(other)`: assign every binding of `other` into `d` in order. -/
def dUpdate {α : Type} (d other : List (String × α)) : List (String × α) :=
  other.foldl (fun acc p => dSet acc p.1 p.2) d

/-- Membership of a key in a dict (`k in d`). -/
def dHasKey {α : Type} (d : List (String × α)) (k : String) : Bool :=
  (dGet d k).isSome

theorem dGet_dSet_same {α : Type} (d : List (String × α)) (k : String) (v : α) :
    dGet (dSet d k v) k = some v := by
  induction d with
  | nil => simp [dGet, dSet]
  | cons p rest ih =>
    by_cases h : p.1 = k
    · simp [dGet, dSet, h]
    · simp [dGet, dSet, h, ih]

theorem dGet_dSet_ne {α : Type} (d : List (String × α)) (k k2 : String) (v : α)
    (h : k2 ≠ k) : dGet (dSet d k v) k2 = dGet d k2 := by
  induction d with
  | nil => simp [dGet, dSet, Ne.symm h]
  | cons p rest ih =>
    by_cases hp : p.1 = k
    · have hp2 : p.1 ≠ k2 := by rw [hp]; exact Ne.symm h
      simp [dGet, dSet, hp, hp2, Ne.symm h]
    · by_cases hq : p.1 = k2
      · simp [dGet, dSet, hp, hq, h]
      · simp [dGet, dSet, hp, hq, ih]

/-- Celery task states observed through `AsyncResult.state`. -/
inductive CeleryState where
  | PENDING
  | STARTED
  | PROGRESS
  | SUCCESS
  | FAILURE
deriving DecidableEq, Repr

/-- `state.lower()` as applied by the orchestrator. -/
def CeleryState.lower : CeleryState → String
  | .PENDING => "pending"
  | .STARTED => "started"
  | .PROGRESS => "progress"
  | .SUCCESS => "success"
  | .FAILURE => "failure"

/-- `AsyncResult.ready()`: the state is terminal. -/
def CeleryState.ready : CeleryState → Bool
  | .SUCCESS => true
  | .FAILURE => true
  | _ => false

/-- Boolean list-prefix test over characters. -/
def isPrefixB : List Char → List Char → Bool
  | [], _ => true
  | _ :: _, [] => false
  | a :: as, b :: bs => a = b && isPrefixB as bs

/-- Boolean list-infix test over characters. -/
def isInfixB (needle : List Char) : List Char → Bool
  | [] => isPrefixB needle []
  | c :: rest => isPrefixB needle (c :: rest) || isInfixB needle rest

/-- `needle in hay` on strings. -/
def strContains (hay needle : String) : Bool :=
  isInfixB needle.data hay.data

/-! ## Worker service — `src/worker_service/tasks.py` -/

namespace WorkerService

/-- A registered automation function: takes the params dict and either
returns a value or raises (modelled as `Except`), as in the Handler
contract `handler(params) -> payload | fails`. -/
abbrev Handler := Dict → Except String Val

/-- The subset of `app.conf.update(...)` settings relevant here
(lines 33–58 of `worker_service/tasks.py`). -/
structure CeleryConf where
  task_track_started : Bool
  task_time_limit : ℕ
  task_soft_time_limit : ℕ
  worker_prefetch_multiplier : ℕ
  task_acks_late : Bool
  result_expires : ℕ
deriving Repr

/-- The concrete configuration values set by the worker service. -/
def workerCeleryConf : CeleryConf :=
  { task_track_started := true
    task_time_limit := 30 * 60
    task_soft_time_limit := 25 * 60
    worker_prefetch_multiplier := 1
    task_acks_late := true
    result_expires := 3600 }

/-- `get_automation_function`: looks `task_name` up in `task_map`; returns
`none` both when the name is absent and when its entry is `None`. -/
def get_automation_function (task_map : List (String × Option Handler))
    (task_name : String) : Option Handler :=
  match dGet task_map task_name with
  | none => none
  | some none => none
  | some (some f) => some f

/-- `test_automation_task`.  The `random` draws are explicit parameters:
`r = random.random()`, `m = random.randint(1, 10)` (approved_count),
`nd = random.randint(1, 5)` (number of detail items), and
`default_duration = random.uniform(1, 5)`; `ts` stands for
`datetime.utcnow().isoformat()`.  A non-numeric `duration`/`success_rate`
param is a runtime type error in the source and is out of scope, so the
numeric value is read off the param when present. -/
def test_automation_task (r : ℚ) (m nd : ℕ) (default_duration : ℚ)
    (ts : String) (params : Dict) : Except String Dict :=
  let work_duration : ℚ :=
    match dGet params "duration" with
    | some (.num q) => q
    | _ => default_duration
  let success_rate : ℚ :=
    match dGet params "success_rate" with
    | some (.num q) => q
    | _ => 8 / 10
  if r < success_rate then
    Except.ok
      [ ("status", .str "completed"),
        ("approved_count", .num (m : ℚ)),
        ("details", .list ((List.range nd).map (fun i =>
          Val.dict
            [ ("item", .str ("test_item_" ++ toString i)),
              ("action", .str "approved"),
              ("timestamp", .str ts) ]))),
        ("summary", .str ("Test task completed successfully in " ++
          toString work_duration ++ "s")),
        ("execution_time", .num work_duration) ]
  else
    Except.error "Test task failed (simulated failure)"

/-- The `task_map` dict after module load: `approve_batches` maps to the
automation-service function when the import succeeded (else `None`), and
`test_task` is set to the local `test_automation_task` at line 284. -/
def task_map (batch_approval_service : Option Handler) (r : ℚ) (m nd : ℕ)
    (default_duration : ℚ) (ts : String) : List (String × Option Handler) :=
  [ ("approve_batches", batch_approval_service),
    ("test_task", some (fun p =>
      (test_automation_task r m nd default_duration ts p).map Val.dict)) ]

/-- Outcome of one `worker.execute_task` invocation: either the returned
result dict, or the exception re-raised at line 247 together with the
FAILURE meta written by `self.update_state` at lines 234–244. -/
inductive ExecOutcome where
  | success (result : Dict)
  | failure (error_msg : String) (meta : Dict)
deriving Repr

/-- Celery marks a task `SUCCESS` when the function returns and `FAILURE`
when it re-raises (the source re-raises precisely "so Celery marks the
task as failed"). -/
def ExecOutcome.celeryState : ExecOutcome → CeleryState
  | .success _ => .SUCCESS
  | .failure _ _ => .FAILURE

/-- The metadata keys stamped onto the local `result` dict by
`result.update({...})` at lines 202–209. -/
def metadataKeys : List String :=
  ["task_id", "task_type", "status", "started_at", "completed_at",
   "execution_time"]

/-- The message of the `TypeError` raised by the success-logging f-string
at line 212: `timer.duration` is still `None` inside the `with Timer(...)`
block (`Timer.__exit__`, which sets `end_time`, has not run —
`shared/utils.py` lines 253–272), and `f"{None:.2f}"` raises
`TypeError("unsupported format string passed to NoneType.__format__")`. -/
def durationFmtError : String :=
  "unsupported format string passed to NoneType.__format__"

/-- The value of the local `result` dict at line 209, just before the
success-log f-string at line 212 raises: the handler payload (wrapped
under `result` when it is not a dict, lines 197–198) stamped with the six
metadata keys — `execution_time` being `None`, since `timer.duration` is
read inside the Timer block.  This dict is discarded when line 212
raises; `return result` at line 213 is never reached. -/
def mergedResult (task_id task_type start_ts completed_ts : String)
    (v : Val) : Dict :=
  dUpdate
    (match v with
     | .dict d => d
     | other => [("result", other)])
    [ ("task_id", .str task_id),
      ("task_type", .str task_type),
      ("status", .str "completed"),
      ("started_at", .str start_ts),
      ("completed_at", .str completed_ts),
      ("execution_time", Val.vnull) ]

/-- `worker.execute_task` (lines 157–247).  `task_id` is the Celery request
id and `start_ts`/`completed_ts`/`failed_ts` stand for the
`datetime.utcnow().isoformat()` calls.  Every path raises: an unresolved
task type raises `ValueError`, a failing handler propagates its exception,
and even a handler that returns sends the run to the `except` block,
because the success-log f-string at line 212 raises a `TypeError`
(`timer.duration` is `None` inside the `with Timer(...)` block) after the
`result.update` at lines 202–209 and before `return result`.
`screenshot_path` stays `None` on the error path: the guard
`'automation_service' in sys.modules` never fires because the module is
imported under the name `batch_approval_service`. -/
def execute_task (task_map : List (String × Option Handler))
    (task_id task_type : String) (params : Dict)
    (start_ts completed_ts failed_ts : String) :
    ExecOutcome :=
  let failMeta := fun (error_msg : String) =>
    [ ("status", Val.str "failed"),
      ("task_type", Val.str task_type),
      ("error", Val.str error_msg),
      ("started_at", Val.str start_ts),
      ("failed_at", Val.str failed_ts),
      ("screenshot_path", Val.vnull) ]
  match get_automation_function task_map task_type with
  | none =>
    let error_msg := "No automation function found for task: " ++ task_type
    .failure error_msg (failMeta error_msg)
  | some f =>
    match f params with
    | .error e => .failure e (failMeta e)
    | .ok v =>
      let _result : Dict := mergedResult task_id task_type start_ts
        completed_ts v
      .failure durationFmtError (failMeta durationFmtError)

end WorkerService

/-! ## Legacy executor — `src/tasks.py` -/

namespace Legacy

/-- `execute_task` of the top-level `src/tasks.py` (lines 11–17):
dispatches `approve_batches` and answers every other task type with a
warning string returned as a normal (successful) result. -/
def execute_task (approve_batches : Unit → Except String Unit)
    (task_type : String) (params : Dict) : Except String String :=
  if task_type = "approve_batches" then
    match approve_batches () with
    | .error e => .error e
    | .ok _ => .ok "✅ ESC batch approval completed."
  else
    .ok ("⚠️ Unknown task type: " ++ task_type)

/-- Celery state of a task function that returned (`SUCCESS`) or raised
(`FAILURE`). -/
def celeryStateOf {α : Type} : Except String α → CeleryState
  | .ok _ => .SUCCESS
  | .error _ => .FAILURE

end Legacy

/-! ## Orchestrator service — `src/orchestrator_service/main.py` -/

namespace Orchestrator

/-- `os.getenv("API_KEY", "your_secret_key")` (line 32). -/
def API_KEY (env : Option String) : String :=
  env.getD "your_secret_key"

/-- Outcome of the HTTP middleware: either the 401 short-circuit response,
or the request proceeds to `call_next` (the endpoint handler). -/
inductive MWResult where
  | unauthorized (status_code : ℕ) (detail : String)
  | proceed
deriving Repr, DecidableEq

/-- `api_key_middleware` (lines 48–68).  The header is `none` when absent;
Python `not api_key` is also true for the empty string. -/
def api_key_middleware (api_key : String) (path : String)
    (x_api_key : Option String) : MWResult :=
  if path = "/docs" ∨ path = "/openapi.json" ∨ path = "/redoc" then
    .proceed
  else
    match x_api_key with
    | none =>
      .unauthorized 401 "Invalid or missing API key. Include \x27x-api-key\x27 header."
    | some k =>
      if k = "" ∨ k ≠ api_key then
        .unauthorized 401 "Invalid or missing API key. Include \x27x-api-key\x27 header."
      else
        .proceed

/-- Response of `GET /tasks/` (lines 159–196): the worker reply on success,
or the structured 500 JSON error (whose `details` carry `fallback_tasks`)
when `send_task(...).get(timeout=10)` raised. -/
inductive TasksResponse where
  | ok (available_tasks : List String)
  | errorResponse (status_code : ℕ) (message : String)
      (fallback_tasks : List String)
deriving Repr, DecidableEq

/-- `get_tasks`: `worker_reply` models the
`celery_app.send_task("worker.list_available_tasks").get(timeout=10)` call,
raising (`Except.error`) when the worker/registry is unreachable. -/
def get_tasks (worker_reply : Except String (List String)) : TasksResponse :=
  match worker_reply with
  | .ok ts => .ok ts
  | .error e =>
    .errorResponse 500 ("Failed to fetch available tasks: " ++ e)
      ["approve_batches", "test_task"]

/-- What the Celery backend stores as a task's result/meta and hands back
through `AsyncResult.info` / `AsyncResult.result`: a meta dict (written by
`update_state`, or a dict return value), or the exception instance stored
by `mark_as_failure` when the task function re-raises — read back as an
exception object, kept here as its class name and message. -/
inductive BackendPayload where
  | dict (d : Dict)
  | exc (cls msg : String)
deriving Repr

/-- One Celery result-backend entry: the task state plus the meta/result
payload read back through `AsyncResult.info` / `AsyncResult.result`. -/
structure TaskMeta where
  state : CeleryState
  info : BackendPayload
deriving Repr

/-- `AsyncResult.state`: `PENDING` when the backend has no entry for the
id (never-created or expired), else the stored state. -/
def backendState : Option TaskMeta → CeleryState
  | none => .PENDING
  | some m => m.state

/-- A message placed on the broker by `celery_app.send_task`. -/
structure BrokerMsg where
  name : String
  args : List Val
deriving Repr

/-- Orchestrator-visible shared state: the Celery result backend (keyed by
task id) and the broker queue. -/
structure OrchestratorState where
  store : List (String × TaskMeta)
  queue : List (String × BrokerMsg)
deriving Repr

/-- `TaskResponse` (lines 120–125). -/
structure TaskResponse where
  task_id : String
  status : String
  message : String
  timestamp : String
deriving Repr, DecidableEq

/-- `celery_app.send_task(name, args)`: enqueues the message under a fresh
broker-generated id and returns that id; it writes nothing to the result
backend. -/
def send_task (st : OrchestratorState) (fresh_id : String) (name : String)
    (args : List Val) : OrchestratorState × String :=
  ({ st with queue := st.queue ++ [(fresh_id, { name := name, args := args })] },
   fresh_id)

/-- `POST /assign-task/` (lines 198–226): sends `worker.{task_type}` with
`[params]` and answers `status="assigned"`. -/
def assign_task (st : OrchestratorState) (fresh_id : String)
    (task_type : String) (params : Dict) (now : String) :
    OrchestratorState × TaskResponse :=
  let sent := send_task st fresh_id ("worker." ++ task_type) [.dict params]
  (sent.1,
   { task_id := sent.2
     status := "assigned"
     message := "Task \x27" ++ task_type ++ "\x27 successfully assigned"
     timestamp := now })

/-- Python truthiness of a payload value. -/
def truthy : Val → Bool
  | .str s => !s.isEmpty
  | .num q => decide (q ≠ 0)
  | .bool b => b
  | .vnull => false
  | .list vs => !vs.isEmpty
  | .dict d => !d.isEmpty

/-- Python `str(...)` on a payload value (collection rendering is
abstracted). -/
def pyStr : Val → String
  | .str s => s
  | .num q => toString q
  | .bool b => if b then "True" else "False"
  | .vnull => "None"
  | .list _ => "<list>"
  | .dict _ => "<dict>"

/-- `Path(p).name`: the last path component. -/
def pathName (p : String) : String :=
  (p.splitOn "/").getLastD p

/-- `TaskResult` (lines 127–138), with the `base_response` defaults. -/
structure TaskResult where
  task_id : String
  status : String
  result : Option Dict := none
  error : Option String := none
  logs : Val := .list []
  screenshot_url : Option String := none
  download_links : List String := []
  started_at : Option Val := none
  finished_at : Option Val := none
  timestamp : String
deriving Repr

/-- The screenshot-URL block shared by the success and failure branches
(lines 282–285 and 306–309). -/
def screenshotUrl (d : Dict) : Option String :=
  match dGet d "screenshot_path" with
  | some v =>
    if truthy v then
      some ("http://127.0.0.1:8000/static/" ++ pathName (pyStr v))
    else
      none
  | none => none

/-- The message of the `AttributeError` raised by calling `.get(...)` on a
stored exception object (exceptions have no `get` method); the endpoint's
outer `except` turns it into the 500 error body. -/
def attrErrMsg (cls : String) : String :=
  "\x27" ++ cls ++ "\x27 object has no attribute \x27get\x27"

/-- Response of `GET /result/{task_id}`: the 200 `TaskResult` body, or the
`JSONResponse(status_code=500, content={"status": "error", ...})` produced
by the endpoint's `except` block (lines 323–333). -/
inductive ResultResponse where
  | body (r : TaskResult)
  | errorResponse (status_code : ℕ) (message : String)
deriving Repr

/-- The `status` field of either response body: the `TaskResult.status`,
or the literal `"error"` that the 500 JSON body carries. -/
def ResultResponse.status : ResultResponse → String
  | .body r => r.status
  | .errorResponse _ _ => "error"

/-- The `result` field of the response body (the 500 body has none). -/
def ResultResponse.result : ResultResponse → Option Dict
  | .body r => r.result
  | .errorResponse _ _ => none

/-- The `error` field of the `TaskResult` body (the 500 body instead
carries its `message`). -/
def ResultResponse.error : ResultResponse → Option String
  | .body r => r.error
  | .errorResponse _ _ => none

/-- `GET /result/{task_id}` (lines 240–333).  `backend` is the result
backend entry for the id and `now` is `datetime.utcnow().isoformat()`.
An absent entry reads back as state PENDING with `info or {}` the empty
dict.  When the stored payload is an exception object (a FAILURE recorded
from a re-raise), the branch's `.get(...)` call raises `AttributeError`,
which the outer `except` converts into the 500 error body. -/
def get_task_result (task_id : String) (backend : Option TaskMeta)
    (now : String) : ResultResponse :=
  let st := backendState backend
  let info : BackendPayload := match backend with
    | none => .dict []
    | some m => m.info
  if st.ready then
    if st = .SUCCESS then
      match info with
      | .exc cls _ =>
        .errorResponse 500
          ("Failed to retrieve task result: " ++ attrErrMsg cls)
      | .dict result_data =>
        .body
          { task_id := task_id
            timestamp := now
            status := "completed"
            result := some result_data
            started_at := dGet result_data "started_at"
            finished_at := dGet result_data "completed_at"
            logs := (dGet result_data "logs").getD (.list [])
            screenshot_url := screenshotUrl result_data
            download_links :=
              match dGet result_data "download_files" with
              | some v =>
                if truthy v then
                  match v with
                  | .list fs =>
                    fs.map (fun f =>
                      "http://127.0.0.1:8000/static/" ++ pathName (pyStr f))
                  | _ => []
                else []
              | none => [] }
    else
      match info with
      | .exc cls _ =>
        .errorResponse 500
          ("Failed to retrieve task result: " ++ attrErrMsg cls)
      | .dict error_info =>
        .body
          { task_id := task_id
            timestamp := now
            status := "failed"
            error := some (pyStr ((dGet error_info "error").getD
              (.str "Unknown error")))
            started_at := dGet error_info "started_at"
            finished_at := dGet error_info "failed_at"
            logs := (dGet error_info "logs").getD (.list [])
            screenshot_url := screenshotUrl error_info }
  else
    match info with
    | .exc cls _ =>
      .errorResponse 500
        ("Failed to retrieve task result: " ++ attrErrMsg cls)
    | .dict task_info =>
      .body
        { task_id := task_id
          timestamp := now
          status := st.lower
          started_at := dGet task_info "started_at"
          logs := (dGet task_info "logs").getD (.list []) }

/-- The WebSocket connection manager (lines 90–112): a dict from task id
to the (single) active connection, here named by a numeric handle. -/
structure ConnectionManager where
  active_connections : List (String × ℕ)
deriving Repr, DecidableEq

/-- `ConnectionManager.connect`: dict assignment
`active_connections[task_id] = websocket`. -/
def ConnectionManager.connect (m : ConnectionManager) (ws : ℕ)
    (task_id : String) : ConnectionManager :=
  ⟨dSet m.active_connections task_id ws⟩

/-- `ConnectionManager.disconnect`: `del active_connections[task_id]`. -/
def ConnectionManager.disconnect (m : ConnectionManager) (task_id : String) :
    ConnectionManager :=
  ⟨m.active_connections.filter (fun p => p.1 ≠ task_id)⟩

/-- `ConnectionManager.send_update`: the websocket the message is sent to,
`none` when no connection is registered for the id (message dropped). -/
def ConnectionManager.send_update (m : ConnectionManager) (task_id : String) :
    Option ℕ :=
  dGet m.active_connections task_id

end Orchestrator

/-! ## Evolution of one task id's backend entry -/

namespace Orchestrator

/-- Writes observable on one task id's result-backend entry.  No source
invariant restricts what state a write may land on: with
`task_acks_late=True` a crash before acknowledgment redelivers the
message, and the re-run writes STARTED (`task_track_started=True`),
PROGRESS (`update_state`, line 183) and FAILURE over whatever entry —
terminal included — the previous run left behind; a FAILURE is written
both as the `update_state` meta dict (line 234) and, on the re-raise at
line 247, as the exception stored by `mark_as_failure`; `expire` is the
deletion of a stored entry once `result_expires = 3600` (line 49) has
elapsed.  There is no PENDING write: the dispatcher writes nothing, so an
unclaimed or expired id simply has no entry. -/
inductive BackendStep : Option TaskMeta → Option TaskMeta → Prop where
  | started (b : Option TaskMeta) (info : Dict) :
      BackendStep b (some { state := .STARTED, info := .dict info })
  | progress (b : Option TaskMeta) (info : Dict) :
      BackendStep b (some { state := .PROGRESS, info := .dict info })
  | succeed (b : Option TaskMeta) (res : BackendPayload) :
      BackendStep b (some { state := .SUCCESS, info := res })
  | fail (b : Option TaskMeta) (info : BackendPayload) :
      BackendStep b (some { state := .FAILURE, info := info })
  | expire (m : TaskMeta) : BackendStep (some m) none

/-- Along a list of observed response statuses, once a terminal status
(`"completed"`/`"failed"`) has been observed, no later observation is one
of the pre-terminal statuses `"pending"`/`"started"`/`"progress"`. -/
def monotonicObs (l : List String) : Prop :=
  ∀ i j : Fin l.length, i < j →
    l.get i ∈ (["completed", "failed"] : List String) →
    l.get j ∉ (["pending", "started", "progress"] : List String)

instance (l : List String) : Decidable (monotonicObs l) := by
  unfold monotonicObs
  infer_instance

end Orchestrator

/-! ## Shared lemmas about dict update -/

theorem dGet_dUpdate_not_mem {α : Type} (d ps : List (String × α)) (k : String)
    (h : k ∉ ps.map Prod.fst) : dGet (dUpdate d ps) k = dGet d k := by
  induction ps generalizing d with
  | nil => rfl
  | cons p rest ih =>
    simp only [List.map_cons, List.mem_cons] at h
    push_neg at h
    have hstep : dUpdate d (p :: rest) = dUpdate (dSet d p.1 p.2) rest := rfl
    rw [hstep, ih _ h.2, dGet_dSet_ne _ _ _ _ h.1]

theorem dGet_dUpdate_mem {α : Type} (d ps : List (String × α)) (k : String)
    (v : α) (hnd : (ps.map Prod.fst).Nodup) (hmem : (k, v) ∈ ps) :
    dGet (dUpdate d ps) k = some v := by
  induction ps generalizing d with
  | nil => cases hmem
  | cons p rest ih =>
    have hstep : dUpdate d (p :: rest) = dUpdate (dSet d p.1 p.2) rest := rfl
    rw [hstep]
    simp only [List.map_cons, List.nodup_cons] at hnd
    rcases List.mem_cons.mp hmem with heq | hrest
    · subst heq
      have hk : k ∉ rest.map Prod.fst := by simpa using hnd.1
      rw [dGet_dUpdate_not_mem _ _ _ hk]
      exact dGet_dSet_same d k v
    · exact ih _ hnd.2 hrest

namespace WorkerService

/-- Look a key up in a successful outcome's result dict. -/
def resultGet (o : ExecOutcome) (k : String) : Option Val :=
  match o with
  | .success d => dGet d k
  | .failure _ _ => none

/-- The exception message of a failed outcome. -/
def ExecOutcome.errMsg : ExecOutcome → Option String
  | .failure e _ => some e
  | .success _ => none

/-- The value is a non-empty list. -/
def valNonEmptyList : Option Val → Bool
  | some (.list (_ :: _)) => true
  | _ => false

end WorkerService

/-- The value is a Python dict. -/
def Val.isDict : Val → Bool
  | .dict _ => true
  | _ => false

/-! ## Reduction lemmas for the worker executor -/

open WorkerService Orchestrator

theorem execute_task_resolved_ok (tm : List (String × Option Handler))
    (task_id task_type : String) (params : Dict) (f : Handler) (v : Val)
    (start_ts completed_ts failed_ts : String)
    (hf : get_automation_function tm task_type = some f)
    (hok : f params = Except.ok v) :
    execute_task tm task_id task_type params start_ts completed_ts
        failed_ts =
      ExecOutcome.failure durationFmtError
        [ ("status", Val.str "failed"),
          ("task_type", Val.str task_type),
          ("error", Val.str durationFmtError),
          ("started_at", Val.str start_ts),
          ("failed_at", Val.str failed_ts),
          ("screenshot_path", Val.vnull) ] := by
  simp [execute_task, hf, hok]

theorem execute_task_unresolved (tm : List (String × Option Handler))
    (task_id task_type : String) (params : Dict)
    (start_ts completed_ts failed_ts : String)
    (h : get_automation_function tm task_type = none) :
    execute_task tm task_id task_type params start_ts completed_ts
        failed_ts =
      ExecOutcome.failure
        ("No automation function found for task: " ++ task_type)
        [ ("status", Val.str "failed"),
          ("task_type", Val.str task_type),
          ("error",
            Val.str ("No automation function found for task: " ++ task_type)),
          ("started_at", Val.str start_ts),
          ("failed_at", Val.str failed_ts),
          ("screenshot_path", Val.vnull) ] := by
  simp [execute_task, h]

theorem execute_task_resolved_err (tm : List (String × Option Handler))
    (task_id task_type : String) (params : Dict) (f : Handler) (e : String)
    (start_ts completed_ts failed_ts : String)
    (hf : get_automation_function tm task_type = some f)
    (herr : f params = Except.error e) :
    execute_task tm task_id task_type params start_ts completed_ts
        failed_ts =
      ExecOutcome.failure e
        [ ("status", Val.str "failed"),
          ("task_type", Val.str task_type),
          ("error", Val.str e),
          ("started_at", Val.str start_ts),
          ("failed_at", Val.str failed_ts),
          ("screenshot_path", Val.vnull) ] := by
  simp [execute_task, hf, herr]

/-- The ordered backend writes of one delivery of `worker.execute_task`,
read off the function body: the STARTED write from
`task_track_started=True` when the run begins, the PROGRESS write at
line 183 when (and only when) the handler resolved, then — since every
path of the function raises — the FAILURE meta written by `update_state`
at line 234 followed by the FAILURE write of the re-raised exception
(`mark_as_failure`, storing the exception instance of class
`exc_cls`). -/
def runWrites (tm : List (String × Option Handler))
    (task_id task_type : String) (params : Dict)
    (start_ts completed_ts failed_ts : String)
    (started_info progress_info : Dict) (exc_cls : String) :
    List TaskMeta :=
  let o := execute_task tm task_id task_type params start_ts completed_ts
    failed_ts
  [{ state := .STARTED, info := .dict started_info }] ++
  (if (get_automation_function tm task_type).isSome then
    [{ state := .PROGRESS, info := .dict progress_info }]
  else []) ++
  match o with
  | .failure e meta =>
    [{ state := .FAILURE, info := .dict meta },
     { state := .FAILURE, info := .exc exc_cls e }]
  | .success d => [{ state := .SUCCESS, info := .dict d }]

/-! ## Claim C1 -/

/-- C1 counterexample: in the legacy executor (`src/tasks.py`, reached via
`execute_task.delay` in `src/main.py`), a submission with the unregistered
task type `no_such_type` makes `execute_task` return the warning string as
a normal result, so Celery reports the execution as `SUCCESS` — not as a
terminal `FAILURE` of kind `UnknownTaskType`. -/
theorem C1_counterexample :
    Legacy.execute_task (fun _ => Except.ok ()) "no_such_type" [] =
      Except.ok "⚠️ Unknown task type: no_such_type" ∧
    Legacy.celeryStateOf
      (Legacy.execute_task (fun _ => Except.ok ()) "no_such_type" []) =
      CeleryState.SUCCESS :=
  ⟨rfl, rfl⟩

/-- C1 (amended): in the worker-service generic executor
(`src/worker_service/tasks.py`), every execution attempt whose task type
resolves to no handler function raises
`ValueError("No automation function found for task: ...")`, which is
recorded as a terminal FAILURE carrying that error message, and the
worker's acks-late configuration acknowledges the message after this
terminal outcome; but the legacy executor in `src/tasks.py` instead
reports such a task as SUCCESS with a warning string, and no structured
error kind `UnknownTaskType` exists anywhere. -/
theorem C1_unknown_type_failure (tm : List (String × Option Handler))
    (task_id task_type : String) (params : Dict)
    (start_ts completed_ts failed_ts : String)
    (h : get_automation_function tm task_type = none) :
    execute_task tm task_id task_type params start_ts completed_ts
        failed_ts =
      ExecOutcome.failure
        ("No automation function found for task: " ++ task_type)
        [ ("status", Val.str "failed"),
          ("task_type", Val.str task_type),
          ("error",
            Val.str ("No automation function found for task: " ++ task_type)),
          ("started_at", Val.str start_ts),
          ("failed_at", Val.str failed_ts),
          ("screenshot_path", Val.vnull) ] ∧
    (execute_task tm task_id task_type params start_ts completed_ts
        failed_ts).celeryState = CeleryState.FAILURE ∧
    workerCeleryConf.task_acks_late = true := by
  refine ⟨?_, ?_, rfl⟩ <;>
    simp [execute_task, h, ExecOutcome.celeryState]

/-- Witness for C1: the amended theorem applied to the worker service's
actual `task_map` and the concrete unknown type `no_such_type`. -/
theorem C1_unknown_type_failure_witness :
    get_automation_function (task_map none (1/2) 3 2 2 "TS") "no_such_type" =
      none ∧
    (execute_task (task_map none (1/2) 3 2 2 "TS") "tid" "no_such_type" []
        "S" "C" "F").celeryState = CeleryState.FAILURE :=
  ⟨rfl,
   (C1_unknown_type_failure (task_map none (1/2) 3 2 2 "TS") "tid"
      "no_such_type" [] "S" "C" "F" rfl).2.1⟩

/-! ## Claim C2 -/

/-- C2 counterexample: `assign_task` returns the task id without writing
anything to the result store — immediately after a concrete submission the
store still has no entry (let alone a PENDING one) for the returned id,
refuting "submit writes an initial Result Store entry with status PENDING
before returning the task_id". -/
theorem C2_counterexample :
    (Orchestrator.assign_task ⟨[], []⟩ "id1" "test_task" [] "now").2.task_id =
      "id1" ∧
    (Orchestrator.assign_task ⟨[], []⟩ "id1" "test_task" [] "now").1.store =
      [] ∧
    dGet (Orchestrator.assign_task ⟨[], []⟩ "id1" "test_task" []
      "now").1.store "id1" = none :=
  ⟨rfl, rfl, rfl⟩

/-- C2 (amended): `assign_task` leaves the result store untouched and
returns the broker-generated task id with status `"assigned"`; no PENDING
entry is written, yet an immediate query for the fresh id still reports
status `"pending"` (never `"unknown"`), because `AsyncResult` treats an
absent backend entry as PENDING. -/
theorem C2_submit_then_query (st : OrchestratorState)
    (fresh_id task_type : String) (params : Dict) (now now2 : String)
    (hfresh : dGet st.store fresh_id = none) :
    (assign_task st fresh_id task_type params now).1.store = st.store ∧
    (assign_task st fresh_id task_type params now).2.task_id = fresh_id ∧
    (assign_task st fresh_id task_type params now).2.status = "assigned" ∧
    (get_task_result fresh_id
      (dGet (assign_task st fresh_id task_type params now).1.store fresh_id)
      now2).status = "pending" ∧
    "pending" ≠ "unknown" := by
  refine ⟨rfl, rfl, rfl, ?_, by decide⟩
  show (get_task_result fresh_id (dGet st.store fresh_id) now2).status =
    "pending"
  rw [hfresh]
  rfl

/-- Witness for C2: the amended theorem at the empty initial state. -/
theorem C2_submit_then_query_witness :
    (assign_task ⟨[], []⟩ "id1" "test_task" [] "now").1.store =
      OrchestratorState.store ⟨[], []⟩ ∧
    (assign_task ⟨[], []⟩ "id1" "test_task" [] "now").2.task_id = "id1" ∧
    (assign_task ⟨[], []⟩ "id1" "test_task" [] "now").2.status = "assigned" ∧
    (get_task_result "id1"
      (dGet (assign_task ⟨[], []⟩ "id1" "test_task" [] "now").1.store "id1")
      "later").status = "pending" ∧
    "pending" ≠ "unknown" :=
  C2_submit_then_query ⟨[], []⟩ "id1" "test_task" [] "now" "later" rfl

/-! ## Claim C3 -/

/-- C3 counterexample: for a task id with no backend entry (never created,
or expired past the `result_expires` TTL), `get_task_result` reports
status `"pending"` — not `"unknown"` and not `"expired"` as the claim
states. -/
theorem C3_counterexample :
    (Orchestrator.get_task_result "missing" none "now").status = "pending" ∧
    "pending" ≠ "unknown" ∧
    "pending" ≠ "expired" :=
  ⟨rfl, by decide, by decide⟩

/-- C3 (amended): for every task id whose result entry has expired and for
every task id that was never created (both read back as an absent backend
entry), `query` returns status `"pending"` with no result payload and no
error — so the stale terminal payload is indeed not returned and the
response is a well-formed 200 body rather than a transport error, but the
reported status is `"pending"`, not `"unknown"`/`"expired"`. -/
theorem C3_no_entry_query (task_id now : String) :
    (get_task_result task_id none now).status = "pending" ∧
    (get_task_result task_id none now).result = none ∧
    (get_task_result task_id none now).error = none :=
  ⟨rfl, rfl, rfl⟩

/-! ## Claim C4 -/

/-- C5 counterexample: the connection manager keys its dict by task id, so
a second subscriber to the same task id overwrites the first — after the
two concrete `connect`s only websocket 2 is registered and every update
(including the final terminal message) is delivered to websocket 2;
subscriber 1 has silently lost its subscription, refuting independence
and exactly-once terminal delivery per subscriber. -/
theorem C5_counterexample :
    (((Orchestrator.ConnectionManager.mk []).connect 1 "t").connect 2
      "t").active_connections = [("t", 2)] ∧
    (((Orchestrator.ConnectionManager.mk []).connect 1 "t").connect 2
      "t").send_update "t" = some 2 :=
  ⟨rfl, rfl⟩

/-- C5 (amended): the `ConnectionManager` keeps at most one connection per
task id: whenever two subscribers connect for the same task id, the later
`connect` replaces the earlier one and every subsequent update — including
the final terminal message — is sent only to the most recent
subscriber. -/
theorem C5_latest_subscriber_wins (m : ConnectionManager) (ws1 ws2 : ℕ)
    (t : String) :
    ((m.connect ws1 t).connect ws2 t).send_update t = some ws2 := by
  show dGet (dSet (dSet m.active_connections t ws1) t ws2) t = some ws2
  exact dGet_dSet_same _ _ _

/-! ## Claim C7 -/

/-- C7 counterexample: when the worker registry is unreachable, `GET
/tasks/` answers with HTTP status 500 and an error body (the fallback list
sits inside the error's `details`), so the endpoint does fail the request
with an error response rather than returning a fallback list of task
types. -/
theorem C7_counterexample :
    Orchestrator.get_tasks (Except.error "TimeoutError") =
      Orchestrator.TasksResponse.errorResponse 500
        "Failed to fetch available tasks: TimeoutError"
        ["approve_batches", "test_task"] :=
  rfl

/-- C7 (amended): on registry unavailability the endpoint responds with a
structured HTTP 500 error whose `details` carry the documented fallback
list `["approve_batches", "test_task"]`; when the worker replies, the
registered type names are returned as a success body. -/
theorem C7_fallback_inside_error (e : String) :
    get_tasks (Except.error e) =
      TasksResponse.errorResponse 500
        ("Failed to fetch available tasks: " ++ e)
        ["approve_batches", "test_task"] ∧
    (∀ ts, get_tasks (Except.ok ts) = TasksResponse.ok ts) :=
  ⟨rfl, fun _ => rfl⟩

/-! ## Claim C6 -/

/-- A concrete handler returning the optional artifact fields of the
Handler contract. -/
def artifactHandler : Handler := fun _ =>
  Except.ok (Val.dict
    [ ("logs", Val.list [Val.str "line1"]),
      ("screenshot_ref", Val.str "shot.png"),
      ("download_refs", Val.list [Val.str "a.csv"]) ])

/-- C6 counterexample: a handler that returns the artifact payload
(`logs`, `screenshot_ref`, `download_refs`) never gets it merged into a
terminal envelope — the executor raises `TypeError` at its success-log
f-string (`timer.duration` is `None` inside the Timer block) before
`return result`, so the run ends as FAILURE and the terminal envelope is
the failure meta, which carries no `logs` key at all. -/
theorem C6_counterexample :
    artifactHandler [] =
      Except.ok (Val.dict
        [ ("logs", Val.list [Val.str "line1"]),
          ("screenshot_ref", Val.str "shot.png"),
          ("download_refs", Val.list [Val.str "a.csv"]) ]) ∧
    WorkerService.execute_task [("h", some artifactHandler)]
        "tid" "h" [] "S" "C" "F" =
      WorkerService.ExecOutcome.failure
        "unsupported format string passed to NoneType.__format__"
        [ ("status", Val.str "failed"),
          ("task_type", Val.str "h"),
          ("error", Val.str
            "unsupported format string passed to NoneType.__format__"),
          ("started_at", Val.str "S"),
          ("failed_at", Val.str "F"),
          ("screenshot_path", Val.vnull) ] ∧
    dGet [ (("status" : String), Val.str "failed"),
          ("task_type", Val.str "h"),
          ("error", Val.str
            "unsupported format string passed to NoneType.__format__"),
          ("started_at", Val.str "S"),
          ("failed_at", Val.str "F"),
          ("screenshot_path", Val.vnull) ] "logs" = none :=
  ⟨rfl, rfl, rfl⟩

/-- C6 (amended): the Executor merges the payload into the in-memory
`result` dict, where every key-value pair outside the six metadata keys
(`task_id`, `task_type`, `status`, `started_at`, `completed_at`,
`execution_time`) — in particular `logs`, `screenshot_ref` and
`download_refs` — is preserved verbatim while the metadata keys are
overwritten (`execution_time` becomes `None`); but that merged dict never
reaches a terminal envelope: the success-log f-string raises `TypeError`,
the run ends as FAILURE with that message, and the terminal failure meta
carries none of the handler payload. -/
theorem C6_nonmeta_keys_verbatim (tm : List (String × Option Handler))
    (task_id task_type : String) (params : Dict) (f : Handler)
    (payload : Dict) (start_ts completed_ts failed_ts : String)
    (k : String) (v : Val)
    (hf : get_automation_function tm task_type = some f)
    (hp : f params = Except.ok (Val.dict payload))
    (hk : k ∉ metadataKeys)
    (hv : dGet payload k = some v) :
    dGet (mergedResult task_id task_type start_ts completed_ts
      (Val.dict payload)) k = some v ∧
    (execute_task tm task_id task_type params start_ts completed_ts
      failed_ts).errMsg =
      some "unsupported format string passed to NoneType.__format__" := by
  constructor
  · show dGet (dUpdate payload _) k = some v
    rw [dGet_dUpdate_not_mem]
    · exact hv
    · exact hk
  · rw [execute_task_resolved_ok tm task_id task_type params f
      (Val.dict payload) start_ts completed_ts failed_ts hf hp]
    rfl

/-- Witness for C6: the amended theorem at the `logs` key of the concrete
artifact-carrying payload. -/
theorem C6_nonmeta_keys_verbatim_witness :
    get_automation_function [("h", some artifactHandler)] "h" =
      some artifactHandler ∧
    ("logs" ∉ metadataKeys) ∧
    dGet (mergedResult "tid" "h" "S" "C"
      (Val.dict
        [ ("logs", Val.list [Val.str "line1"]),
          ("screenshot_ref", Val.str "shot.png"),
          ("download_refs", Val.list [Val.str "a.csv"]) ])) "logs" =
      some (Val.list [Val.str "line1"]) ∧
    (execute_task [("h", some artifactHandler)] "tid" "h" []
      "S" "C" "F").errMsg =
      some "unsupported format string passed to NoneType.__format__" :=
  ⟨rfl, by decide,
   (C6_nonmeta_keys_verbatim [("h", some artifactHandler)] "tid" "h" []
     artifactHandler
     [ ("logs", Val.list [Val.str "line1"]),
       ("screenshot_ref", Val.str "shot.png"),
       ("download_refs", Val.list [Val.str "a.csv"]) ]
     "S" "C" "F" "logs" (Val.list [Val.str "line1"])
     rfl rfl (by decide) rfl).1,
   (C6_nonmeta_keys_verbatim [("h", some artifactHandler)] "tid" "h" []
     artifactHandler
     [ ("logs", Val.list [Val.str "line1"]),
       ("screenshot_ref", Val.str "shot.png"),
       ("download_refs", Val.list [Val.str "a.csv"]) ]
     "S" "C" "F" "logs" (Val.list [Val.str "line1"])
     rfl rfl (by decide) rfl).2⟩

/-! ## Claim C10 -/

/-- A concrete handler returning a bare string. -/
def bareStringHandler : Handler := fun _ => Except.ok (Val.str "done")

/-- C10 counterexample: even when the resolved handler returns without
raising, the generic executor returns no dict at all — the success-log
f-string at line 212 raises `TypeError` (`timer.duration` is `None`
inside the Timer block) before `return result` is reached, so the run
re-raises and ends as FAILURE. -/
theorem C10_counterexample :
    bareStringHandler [] = Except.ok (Val.str "done") ∧
    WorkerService.execute_task [("h", some bareStringHandler)]
        "tid" "h" [] "S" "C" "F" =
      WorkerService.ExecOutcome.failure
        "unsupported format string passed to NoneType.__format__"
        [ ("status", Val.str "failed"),
          ("task_type", Val.str "h"),
          ("error", Val.str
            "unsupported format string passed to NoneType.__format__"),
          ("started_at", Val.str "S"),
          ("failed_at", Val.str "F"),
          ("screenshot_path", Val.vnull) ] :=
  ⟨rfl, rfl⟩

theorem mergedResult_eq_nondict (task_id task_type start_ts
    completed_ts : String) (v : Val) (h : v.isDict = false) :
    mergedResult task_id task_type start_ts completed_ts v =
      dUpdate [("result", v)]
        [ ("task_id", Val.str task_id),
          ("task_type", Val.str task_type),
          ("status", Val.str "completed"),
          ("started_at", Val.str start_ts),
          ("completed_at", Val.str completed_ts),
          ("execution_time", Val.vnull) ] := by
  cases v <;> first | rfl | simp [Val.isDict] at h

/-- C10 (amended): when the resolved handler returns without raising, the
executor builds the local `result` dict — wrapping a non-dict return
value under the key `result` first — and stamps it with `task_id`,
`task_type`, `status = "completed"`, `started_at`, `completed_at` and
`execution_time`; but `execution_time` is `None` (`timer.duration` read
inside the Timer block), not the elapsed time, and the dict is never
returned: the success-log f-string raises `TypeError` and the run ends
as FAILURE with that message. -/
theorem C10_result_metadata (tm : List (String × Option Handler))
    (task_id task_type : String) (params : Dict) (f : Handler) (v : Val)
    (start_ts completed_ts failed_ts : String)
    (hf : get_automation_function tm task_type = some f)
    (hok : f params = Except.ok v) :
    dGet (mergedResult task_id task_type start_ts completed_ts v)
      "task_id" = some (Val.str task_id) ∧
    dGet (mergedResult task_id task_type start_ts completed_ts v)
      "task_type" = some (Val.str task_type) ∧
    dGet (mergedResult task_id task_type start_ts completed_ts v)
      "status" = some (Val.str "completed") ∧
    dGet (mergedResult task_id task_type start_ts completed_ts v)
      "started_at" = some (Val.str start_ts) ∧
    dGet (mergedResult task_id task_type start_ts completed_ts v)
      "completed_at" = some (Val.str completed_ts) ∧
    dGet (mergedResult task_id task_type start_ts completed_ts v)
      "execution_time" = some Val.vnull ∧
    (v.isDict = false →
      dGet (mergedResult task_id task_type start_ts completed_ts v)
        "result" = some v) ∧
    (execute_task tm task_id task_type params start_ts completed_ts
      failed_ts).errMsg =
      some "unsupported format string passed to NoneType.__format__" := by
  have hbase : ∀ (R : Dict) (k : String) (w : Val),
      (k, w) ∈ ([ ("task_id", Val.str task_id),
          ("task_type", Val.str task_type),
          ("status", Val.str "completed"),
          ("started_at", Val.str start_ts),
          ("completed_at", Val.str completed_ts),
          ("execution_time", Val.vnull) ] : Dict) →
      dGet (dUpdate R
        [ ("task_id", Val.str task_id),
          ("task_type", Val.str task_type),
          ("status", Val.str "completed"),
          ("started_at", Val.str start_ts),
          ("completed_at", Val.str completed_ts),
          ("execution_time", Val.vnull) ]) k = some w := by
    intro R k w hmem
    apply dGet_dUpdate_mem R _ k w ?_ hmem
    show (metadataKeys).Nodup
    decide
  refine ⟨?_, ?_, ?_, ?_, ?_, ?_, ?_, ?_⟩
  · simp only [mergedResult]
    exact hbase _ _ _ (by simp)
  · simp only [mergedResult]
    exact hbase _ _ _ (by simp)
  · simp only [mergedResult]
    exact hbase _ _ _ (by simp)
  · simp only [mergedResult]
    exact hbase _ _ _ (by simp)
  · simp only [mergedResult]
    exact hbase _ _ _ (by simp)
  · simp only [mergedResult]
    exact hbase _ _ _ (by simp)
  · intro hnd
    rw [mergedResult_eq_nondict task_id task_type start_ts completed_ts
      v hnd, dGet_dUpdate_not_mem]
    · rfl
    · show "result" ∉ metadataKeys
      decide
  · rw [execute_task_resolved_ok tm task_id task_type params f v
      start_ts completed_ts failed_ts hf hok]
    rfl

/-- Witness for C10: the theorem at a concrete handler whose return value
is not a dict. -/
theorem C10_result_metadata_witness :
    dGet (mergedResult "tid" "h" "S" "C" (Val.str "done")) "status" =
      some (Val.str "completed") ∧
    dGet (mergedResult "tid" "h" "S" "C" (Val.str "done"))
      "execution_time" = some Val.vnull ∧
    dGet (mergedResult "tid" "h" "S" "C" (Val.str "done")) "result" =
      some (Val.str "done") ∧
    (execute_task [("h", some bareStringHandler)] "tid" "h" []
      "S" "C" "F").errMsg =
      some "unsupported format string passed to NoneType.__format__" :=
  ⟨(C10_result_metadata [("h", some bareStringHandler)] "tid" "h" []
      bareStringHandler (Val.str "done") "S" "C" "F" rfl rfl).2.2.1,
   (C10_result_metadata [("h", some bareStringHandler)] "tid" "h" []
      bareStringHandler (Val.str "done") "S" "C" "F" rfl rfl).2.2.2.2.2.1,
   (C10_result_metadata [("h", some bareStringHandler)] "tid" "h" []
      bareStringHandler (Val.str "done") "S" "C" "F" rfl rfl).2.2.2.2.2.2.1
     rfl,
   (C10_result_metadata [("h", some bareStringHandler)] "tid" "h" []
      bareStringHandler (Val.str "done") "S" "C" "F" rfl rfl).2.2.2.2.2.2.2⟩

/-! ## Claim C9 -/

/-- C9 counterexample: Python `not api_key` is also true for the empty
string, so when the environment configures `API_KEY=""`, a request on a
non-exempt path carrying the exactly matching (empty) key is still
rejected with 401 instead of proceeding to its handler. -/
theorem C9_counterexample :
    Orchestrator.API_KEY (some "") = "" ∧
    Orchestrator.api_key_middleware (Orchestrator.API_KEY (some ""))
      "/tasks/" (some "") =
      Orchestrator.MWResult.unauthorized 401
        "Invalid or missing API key. Include \x27x-api-key\x27 header." :=
  ⟨rfl, rfl⟩

/-- C9 (amended): for every request whose path is not `/docs`,
`/openapi.json` or `/redoc`, a missing `x-api-key` header or one that
fails the `not api_key or api_key != API_KEY` test is answered with 401
and the endpoint handler is never invoked, while a request carrying a
matching non-empty key proceeds to its handler (an empty header is
treated as missing even when it matches an empty configured key); this
gate applies to submission, result query and task-type listing alike. -/
theorem C9_gate (api_key path : String) (hdr : Option String)
    (h1 : path ≠ "/docs") (h2 : path ≠ "/openapi.json")
    (h3 : path ≠ "/redoc") :
    (hdr = none →
      api_key_middleware api_key path hdr =
        MWResult.unauthorized 401
          "Invalid or missing API key. Include \x27x-api-key\x27 header.") ∧
    (∀ k, hdr = some k → (k = "" ∨ k ≠ api_key) →
      api_key_middleware api_key path hdr =
        MWResult.unauthorized 401
          "Invalid or missing API key. Include \x27x-api-key\x27 header.") ∧
    (hdr = some api_key → api_key ≠ "" →
      api_key_middleware api_key path hdr = MWResult.proceed) := by
  have hpath : ¬(path = "/docs" ∨ path = "/openapi.json" ∨ path = "/redoc") := by
    push_neg
    exact ⟨h1, h2, h3⟩
  refine ⟨?_, ?_, ?_⟩
  · rintro rfl
    unfold api_key_middleware
    rw [if_neg hpath]
  · rintro k rfl hk
    unfold api_key_middleware
    rw [if_neg hpath]
    show (if k = "" ∨ k ≠ api_key then _ else _) = _
    rw [if_pos hk]
  · rintro rfl hne
    have hcond : ¬(api_key = "" ∨ api_key ≠ api_key) := by
      push_neg
      exact ⟨hne, rfl⟩
    unfold api_key_middleware
    rw [if_neg hpath]
    show (if api_key = "" ∨ api_key ≠ api_key then _ else _) = _
    rw [if_neg hcond]

/-- Witness for C9: the gate theorem at the default configured key and
the submission path, carrying the matching key. -/
theorem C9_gate_witness :
    ((some "your_secret_key" : Option String) = none →
      api_key_middleware "your_secret_key" "/assign-task/"
        (some "your_secret_key") =
        MWResult.unauthorized 401
          "Invalid or missing API key. Include \x27x-api-key\x27 header.") ∧
    (∀ k, (some "your_secret_key" : Option String) = some k →
      (k = "" ∨ k ≠ "your_secret_key") →
      api_key_middleware "your_secret_key" "/assign-task/"
        (some "your_secret_key") =
        MWResult.unauthorized 401
          "Invalid or missing API key. Include \x27x-api-key\x27 header.") ∧
    ((some "your_secret_key" : Option String) = some "your_secret_key" →
      "your_secret_key" ≠ "" →
      api_key_middleware "your_secret_key" "/assign-task/"
        (some "your_secret_key") = MWResult.proceed) :=
  C9_gate "your_secret_key" "/assign-task/" (some "your_secret_key")
    (by decide) (by decide) (by decide)

/-! ## Claim C8 -/

/-- The payload returned by a successful `test_automation_task` run, with
the sleep duration already resolved to `work_duration`. -/
def testTaskPayload (m nd : ℕ) (work_duration : ℚ) (ts : String) : Dict :=
  [ ("status", .str "completed"),
    ("approved_count", .num (m : ℚ)),
    ("details", .list ((List.range nd).map (fun i =>
      Val.dict
        [ ("item", .str ("test_item_" ++ toString i)),
          ("action", .str "approved"),
          ("timestamp", .str ts) ]))),
    ("summary", .str ("Test task completed successfully in " ++
      toString work_duration ++ "s")),
    ("execution_time", .num work_duration) ]

theorem valNonEmptyList_of_ne_nil (l : List Val) (h : l ≠ []) :
    valNonEmptyList (some (.list l)) = true := by
  cases l with
  | nil => exact absurd rfl h
  | cons a t => rfl

/-- C8: the code evaluated at the claim's inputs.  With `duration = 0.1`
and `success_rate = 1.0` the handler itself succeeds for every possible
draw of `random.random() ∈ [0, 1)` and returns the payload with a
non-empty `details` list (`nd = random.randint(1, 5)` is at least 1) —
but the generic executor then raises `TypeError` at its own success-log
f-string (`timer.duration` is `None` inside the Timer block), so the
task terminates as FAILURE with that message instead of the claimed
SUCCESS.  With `success_rate = 0.0` the handler always raises
`Exception("Test task failed (simulated failure)")` and the task reaches
terminal FAILURE with a message containing `"failed"`, as claimed. -/
theorem C8_success_rate_one_crashes (b : Option Handler) (r dd : ℚ)
    (m nd : ℕ) (ts tid sts cts fts : String)
    (h0 : 0 ≤ r) (h1 : r < 1) (hnd : 1 ≤ nd) :
    test_automation_task r m nd dd ts
      [("duration", Val.num (1/10)), ("success_rate", Val.num 1)] =
      Except.ok (testTaskPayload m nd (1/10) ts) ∧
    valNonEmptyList (dGet (testTaskPayload m nd (1/10) ts) "details") =
      true ∧
    (execute_task (task_map b r m nd dd ts) tid "test_task"
      [("duration", Val.num (1/10)), ("success_rate", Val.num 1)]
      sts cts fts).celeryState = CeleryState.FAILURE ∧
    (execute_task (task_map b r m nd dd ts) tid "test_task"
      [("duration", Val.num (1/10)), ("success_rate", Val.num 1)]
      sts cts fts).errMsg =
      some "unsupported format string passed to NoneType.__format__" ∧
    (execute_task (task_map b r m nd dd ts) tid "test_task"
      [("duration", Val.num (1/10)), ("success_rate", Val.num 0)]
      sts cts fts).errMsg =
      some "Test task failed (simulated failure)" ∧
    strContains "Test task failed (simulated failure)" "failed" = true := by
  have hf : get_automation_function (task_map b r m nd dd ts) "test_task" =
      some (fun p => (test_automation_task r m nd dd ts p).map Val.dict) :=
    rfl
  have hok1 : test_automation_task r m nd dd ts
      [("duration", Val.num (1/10)), ("success_rate", Val.num 1)] =
      Except.ok (testTaskPayload m nd (1/10) ts) := by
    show (if r < (1 : ℚ) then Except.ok (testTaskPayload m nd (1/10) ts)
      else Except.error "Test task failed (simulated failure)") = _
    rw [if_pos h1]
  have hok1m : (fun p => (test_automation_task r m nd dd ts p).map Val.dict)
      [("duration", Val.num (1/10)), ("success_rate", Val.num 1)] =
      Except.ok (Val.dict (testTaskPayload m nd (1/10) ts)) := by
    show (test_automation_task r m nd dd ts _).map Val.dict = _
    rw [hok1]
    rfl
  have herr0 : (fun p => (test_automation_task r m nd dd ts p).map Val.dict)
      [("duration", Val.num (1/10)), ("success_rate", Val.num 0)] =
      Except.error "Test task failed (simulated failure)" := by
    have hbranch : test_automation_task r m nd dd ts
        [("duration", Val.num (1/10)), ("success_rate", Val.num 0)] =
        Except.error "Test task failed (simulated failure)" := by
      show (if r < (0 : ℚ) then Except.ok (testTaskPayload m nd (1/10) ts)
        else Except.error "Test task failed (simulated failure)") = _
      rw [if_neg (not_lt.mpr h0)]
    show (test_automation_task r m nd dd ts _).map Val.dict = _
    rw [hbranch]
    rfl
  have hexec1 := execute_task_resolved_ok (task_map b r m nd dd ts) tid
    "test_task" [("duration", Val.num (1/10)), ("success_rate", Val.num 1)]
    _ (Val.dict (testTaskPayload m nd (1/10) ts)) sts cts fts hf hok1m
  have hexec0 := execute_task_resolved_err (task_map b r m nd dd ts) tid
    "test_task" [("duration", Val.num (1/10)), ("success_rate", Val.num 0)]
    _ "Test task failed (simulated failure)" sts cts fts hf herr0
  refine ⟨hok1, ?_, ?_, ?_, ?_, rfl⟩
  · show valNonEmptyList (some (.list ((List.range nd).map _))) = true
    apply valNonEmptyList_of_ne_nil
    simp only [ne_eq, List.map_eq_nil_iff, List.range_eq_nil]
    omega
  · rw [hexec1]
    rfl
  · rw [hexec1]
    rfl
  · rw [hexec0]
    rfl

/-- Witness for C8: the evaluation theorem at a concrete random draw
`r = 1/2` and detail count `nd = 2`. -/
theorem C8_success_rate_one_crashes_witness :
    test_automation_task (1/2) 3 2 2 "TS"
      [("duration", Val.num (1/10)), ("success_rate", Val.num 1)] =
      Except.ok (testTaskPayload 3 2 (1/10) "TS") ∧
    valNonEmptyList (dGet (testTaskPayload 3 2 (1/10) "TS") "details") =
      true ∧
    (execute_task (task_map none (1/2) 3 2 2 "TS") "tid" "test_task"
      [("duration", Val.num (1/10)), ("success_rate", Val.num 1)]
      "S" "C" "F").celeryState = CeleryState.FAILURE ∧
    (execute_task (task_map none (1/2) 3 2 2 "TS") "tid" "test_task"
      [("duration", Val.num (1/10)), ("success_rate", Val.num 1)]
      "S" "C" "F").errMsg =
      some "unsupported format string passed to NoneType.__format__" ∧
    (execute_task (task_map none (1/2) 3 2 2 "TS") "tid" "test_task"
      [("duration", Val.num (1/10)), ("success_rate", Val.num 0)]
      "S" "C" "F").errMsg =
      some "Test task failed (simulated failure)" ∧
    strContains "Test task failed (simulated failure)" "failed" = true :=
  C8_success_rate_one_crashes none (1/2) 2 3 2 "TS" "tid" "S" "C" "F"
    (by norm_num) (by norm_num) (by norm_num)
